import Mathlib

/-!
Shallow embedding of the BayesWorkshop notebooks
(zeus_Parameter_Inference.ipynb and arianna_Model_Selection.ipynb).

The notebooks work with IEEE floats; we embed them over an arbitrary
linear ordered field `α` (instantiated with `ℚ` in concrete witnesses).
The only float-specific value the glue code relies on is `-np.inf`,
which we model with the two-constructor type `LogVal`: either negative
infinity or a finite value.  `np.sin` and `np.pi` are external library
entities, so the embedding takes them as parameters (`sn : α → α`,
`piv : α`); no claim depends on analytic properties of the sine function.
NumPy arrays of reals are embedded as `List α`; elementwise (broadcast)
arithmetic becomes `List.map` / `List.zipWith`.
-/

section Embedding

variable {α : Type*} [LinearOrderedField α]

/-- A float that the notebooks' probability functions can return:
either `-np.inf` or a finite value. -/
inductive LogVal (α : Type*) where
  | neginf : LogVal α
  | val : α → LogVal α
deriving DecidableEq, Repr

/-- Embedding of `np.isfinite` restricted to the values the notebooks produce. -/
def LogVal.isfinite : LogVal α → Bool
  | LogVal.neginf => false
  | LogVal.val _ => true

/-- Adding a finite float to a possibly `-inf` float (`lp + log_like(params)`
in `log_post`, where `log_like` always returns a finite value). -/
def LogVal.add : LogVal α → α → LogVal α
  | LogVal.neginf, _ => LogVal.neginf
  | LogVal.val x, y => LogVal.val (x + y)

/-- Embedding of `sine_model(params, t)` from zeus_Parameter_Inference.ipynb:
`A * np.sin((t / P + t0) * 2 * np.pi) + B` at a single time `t`.
`sn` stands for `np.sin` and `piv` for `np.pi`. -/
def sine_model (sn : α → α) (piv : α) (params : α × α × α × α) (t : α) : α :=
  match params with
  | (A, B, P, t0) => A * sn ((t / P + t0) * 2 * piv) + B

/-- Embedding of `sine_model(params, t)` applied to an array `t`: NumPy broadcasts the
arithmetic elementwise over the array. -/
def sine_model_vec (sn : α → α) (piv : α) (params : α × α × α × α)
    (ts : List α) : List α :=
  ts.map (sine_model sn piv params)

/-- Embedding of `model_A(params, t)` from arianna_Model_Selection.ipynb (the sinusoidal
model, textually identical to `sine_model`). -/
def model_A (sn : α → α) (piv : α) (params : α × α × α × α) (t : α) : α :=
  match params with
  | (A, B, P, t0) => A * sn ((t / P + t0) * 2 * piv) + B

/-- Embedding of `model_A` broadcast over an array of times. -/
def model_A_vec (sn : α → α) (piv : α) (params : α × α × α × α)
    (ts : List α) : List α :=
  ts.map (model_A sn piv params)

/-- Embedding of `model_B(params, t)` from arianna_Model_Selection.ipynb:
`B, = params; return 0 * t + B` (the constant offset model). -/
def model_B (params : α) (t : α) : α :=
  0 * t + params

/-- Embedding of `model_B` broadcast over an array of times (`0 * t` has the shape
of `t`, so the result is an array of the same shape). -/
def model_B_vec (params : α) (ts : List α) : List α :=
  ts.map (model_B params)

/-- Embedding of `log_prior(params)` from zeus_Parameter_Inference.ipynb:
returns `-np.inf` when
`np.abs(B)>10.0 or A<0.1 or A>100.0 or P<0.3 or P>10.0 or t0<0.0 or t0>1.0`,
else `0.0`. -/
def log_prior (params : α × α × α × α) : LogVal α :=
  match params with
  | (A, B, P, t0) =>
    if |B| > 10 ∨ A < 1/10 ∨ A > 100 ∨ P < 3/10 ∨ P > 10 ∨ t0 < 0 ∨ t0 > 1
    then LogVal.neginf
    else LogVal.val 0

/-- Embedding of `log_prior_A(params)` from arianna_Model_Selection.ipynb (textually the
same bound checks as `log_prior`). -/
def log_prior_A (params : α × α × α × α) : LogVal α :=
  match params with
  | (A, B, P, t0) =>
    if |B| > 10 ∨ A < 1/10 ∨ A > 100 ∨ P < 3/10 ∨ P > 10 ∨ t0 < 0 ∨ t0 > 1
    then LogVal.neginf
    else LogVal.val 0

/-- Embedding of `log_prior_B(params)` from arianna_Model_Selection.ipynb:
`-np.inf` when `np.abs(B)>10.0`, else `0.0`. -/
def log_prior_B (params : α) : LogVal α :=
  if |params| > 10 then LogVal.neginf else LogVal.val 0

/-- Embedding of `log_like(params)` from zeus_Parameter_Inference.ipynb.  The notebook
captures the observation arrays `t`, `y` and the scalar `yerr` from the
surrounding cell scope; the embedding passes them explicitly:
`y_model = sine_model(params, t)`;
`loglike = -0.5 * (((y_model - y) / yerr)**2).sum()`. -/
def log_like (sn : α → α) (piv : α) (t y : List α) (yerr : α)
    (params : α × α × α × α) : α :=
  let y_model := sine_model_vec sn piv params t
  let loglike := -(1/2) * ((y_model.zip y).map (fun q => ((q.1 - q.2) / yerr) ^ 2)).sum
  loglike

/-- Embedding of `log_like_A(params)` from arianna_Model_Selection.ipynb (same residual
sum, with `model_A`). -/
def log_like_A (sn : α → α) (piv : α) (t y : List α) (yerr : α)
    (params : α × α × α × α) : α :=
  let y_model := model_A_vec sn piv params t
  let loglike := -(1/2) * ((y_model.zip y).map (fun q => ((q.1 - q.2) / yerr) ^ 2)).sum
  loglike

/-- Embedding of `log_like_B(params)` from arianna_Model_Selection.ipynb (same residual
sum, with `model_B`). -/
def log_like_B (t y : List α) (yerr : α) (params : α) : α :=
  let y_model := model_B_vec params t
  let loglike := -(1/2) * ((y_model.zip y).map (fun q => ((q.1 - q.2) / yerr) ^ 2)).sum
  loglike

/-- Embedding of `log_post(params)` from zeus_Parameter_Inference.ipynb:
`lp = log_prior(params); if ~np.isfinite(lp): return -np.inf;
return lp + log_like(params)`. -/
def log_post (sn : α → α) (piv : α) (t y : List α) (yerr : α)
    (params : α × α × α × α) : LogVal α :=
  let lp := log_prior params
  if !(LogVal.isfinite lp) then LogVal.neginf
  else LogVal.add lp (log_like sn piv t y yerr params)

/-- Interface of NumPy's global pseudo-random generator as the
data-generation cells use it.  `np.random` is an external library with a
hidden mutable state; `seedFn` models `np.random.seed`, `uniformDraw` a
single draw of `np.random.uniform(low, high)` and `normalDraw` a single
draw of `np.random.normal(mean, scale)`, each threading the state. -/
structure RNGModel (α : Type*) where
  State : Type
  seedFn : ℕ → State
  uniformDraw : α → α → State → α × State
  normalDraw : α → α → State → α × State

/-- Embedding of `np.random.uniform(low, high, size=n)`: `n` successive uniform draws,
threading the generator state. -/
def npUniform (g : RNGModel α) (low high : α) : ℕ → g.State → List α × g.State
  | 0, s => ([], s)
  | n + 1, s =>
    let p1 := g.uniformDraw low high s
    let p2 := npUniform g low high n p1.2
    (p1.1 :: p2.1, p2.2)

/-- Embedding of `np.random.normal(means, scale)` for an array of means: one normal draw
per mean, threading the generator state. -/
def npNormal (g : RNGModel α) (means : List α) (scale : α)
    (s : g.State) : List α × g.State :=
  match means with
  | [] => ([], s)
  | m :: ms =>
    let p1 := g.normalDraw m scale s
    let p2 := npNormal g ms scale p1.2
    (p1.1 :: p2.1, p2.2)

/-- The data-generation cells of both notebooks:
`np.random.seed(seed)`; `t = np.random.uniform(low, high, size=n_data)`;
`y = np.random.normal(sine_model(params_true, t), yerr)`; the observation
set is the paired sequence of times and values.  `ambient` is the RNG
state left over from whatever ran before the cell; `np.random.seed`
replaces it, so it is discarded. -/
def dataGen (g : RNGModel α) (sn : α → α) (piv : α) (ambient : g.State)
    (seed : ℕ) (n_data : ℕ) (low high : α)
    (params_true : α × α × α × α) (yerr : α) : List (α × α) :=
  let s0 := g.seedFn seed
  let tp := npUniform g low high n_data s0
  let yp := npNormal g (sine_model_vec sn piv params_true tp.1) yerr tp.2
  tp.1.zip yp.1

/-- The data-generation cell run with an arbitrary integer observation
count.  NumPy's behaviour for the `size` argument of
`np.random.uniform`: a negative size raises
`ValueError: negative dimensions are not allowed`; a zero size succeeds
and yields an empty array (and `np.random.normal` on the resulting empty
mean array also succeeds with an empty array). -/
def dataGenChecked (g : RNGModel α) (sn : α → α) (piv : α)
    (ambient : g.State) (seed : ℕ) (n_data : ℤ) (low high : α)
    (params_true : α × α × α × α) (yerr : α) :
    Except String (List (α × α)) :=
  if n_data < 0 then
    Except.error "ValueError: negative dimensions are not allowed"
  else
    Except.ok (dataGen g sn piv ambient seed n_data.toNat low high
      params_true yerr)

end Embedding

/-- A concrete stand-in for `np.sin` over `ℚ`, used only to evaluate the
embedding at concrete inputs. -/
def snQ : ℚ → ℚ := fun x => x

/-- A concrete instance of the RNG interface over `ℚ`, used only to
evaluate the generator at concrete inputs. -/
def rngQ : RNGModel ℚ where
  State := ℕ
  seedFn := fun s => s
  uniformDraw := fun low _high s => (low + s, s + 1)
  normalDraw := fun m _scale s => (m + s, s + 1)

/-- A concrete ambient RNG state for `rngQ`. -/
def ambQ : rngQ.State := (0 : ℕ)

section Theorems

variable {α : Type*} [LinearOrderedField α]

/-- Helper: the sum of a mapped list as a sum over its index set. -/
theorem list_map_sum_eq_fin_sum {β : Type*} (l : List β) (F : β → α) :
    (l.map F).sum = ∑ i : Fin l.length, F (l.get i) := by
  conv_lhs => rw [← List.ofFn_get l]
  rw [List.map_ofFn, List.sum_ofFn]
  rfl

/-- Helper: rewriting the absolute-value bound check of the priors as the
two one-sided bound checks. -/
theorem abs_gt_ten_iff (b : α) : (|b| > 10) ↔ (b < -10 ∨ b > 10) := by
  rw [gt_iff_lt, lt_abs, lt_neg]
  tauto

/-- C1: for every 4-element parameter vector, `log_prior` (and
`log_prior_A`) returns `-inf` exactly when some component falls outside
its declared closed bound (`A ∈ [0.1, 100]`, `B ∈ [-10, 10]`,
`P ∈ [0.3, 10]`, `t0 ∈ [0, 1]`) and returns `0.0` otherwise; similarly
`log_prior_B` over its single bound `B ∈ [-10, 10]`.  The functions are
total: every input yields one of the two values, no error is raised. -/
theorem log_prior_bounds (A B P t0 : α) :
    (log_prior (A, B, P, t0) =
      if A < 1/10 ∨ A > 100 ∨ B < -10 ∨ B > 10 ∨ P < 3/10 ∨ P > 10 ∨
          t0 < 0 ∨ t0 > 1
      then LogVal.neginf else LogVal.val 0)
    ∧ (log_prior_A (A, B, P, t0) =
      if A < 1/10 ∨ A > 100 ∨ B < -10 ∨ B > 10 ∨ P < 3/10 ∨ P > 10 ∨
          t0 < 0 ∨ t0 > 1
      then LogVal.neginf else LogVal.val 0)
    ∧ (log_prior_B B =
      if B < -10 ∨ B > 10 then LogVal.neginf else LogVal.val 0) := by
  refine ⟨?_, ?_, ?_⟩
  · show (if |B| > 10 ∨ A < 1/10 ∨ A > 100 ∨ P < 3/10 ∨ P > 10 ∨
        t0 < 0 ∨ t0 > 1 then LogVal.neginf else LogVal.val 0) = _
    exact if_congr (by rw [abs_gt_ten_iff]; tauto) rfl rfl
  · show (if |B| > 10 ∨ A < 1/10 ∨ A > 100 ∨ P < 3/10 ∨ P > 10 ∨
        t0 < 0 ∨ t0 > 1 then LogVal.neginf else LogVal.val 0) = _
    exact if_congr (by rw [abs_gt_ten_iff]; tauto) rfl rfl
  · show (if |B| > 10 then LogVal.neginf else LogVal.val 0) = _
    exact if_congr (abs_gt_ten_iff B) rfl rfl

/-- C8: boundary values are in-bound: a 4-element parameter vector whose
components all lie within the closed bounds, with at least one component
sitting exactly on a bound endpoint, gets prior `0.0` (not `-inf`),
because all bound comparisons in the source are strict. -/
theorem log_prior_boundary (A B P t0 : α)
    (hin : 1/10 ≤ A ∧ A ≤ 100 ∧ -10 ≤ B ∧ B ≤ 10 ∧ 3/10 ≤ P ∧ P ≤ 10 ∧
      0 ≤ t0 ∧ t0 ≤ 1)
    (hend : A = 1/10 ∨ A = 100 ∨ B = -10 ∨ B = 10 ∨ P = 3/10 ∨ P = 10 ∨
      t0 = 0 ∨ t0 = 1) :
    log_prior (A, B, P, t0) = LogVal.val 0
    ∧ log_prior_A (A, B, P, t0) = LogVal.val 0 := by
  obtain ⟨h1, h2, h3, h4, h5, h6, h7, h8⟩ := hin
  have hno : ¬(|B| > 10 ∨ A < 1/10 ∨ A > 100 ∨ P < 3/10 ∨ P > 10 ∨
      t0 < 0 ∨ t0 > 1) := by
    push_neg
    exact ⟨abs_le.mpr ⟨h3, h4⟩, h1, h2, h5, h6, h7, h8⟩
  constructor
  · show (if |B| > 10 ∨ A < 1/10 ∨ A > 100 ∨ P < 3/10 ∨ P > 10 ∨
        t0 < 0 ∨ t0 > 1 then LogVal.neginf else LogVal.val 0) = _
    exact if_neg hno
  · show (if |B| > 10 ∨ A < 1/10 ∨ A > 100 ∨ P < 3/10 ∨ P > 10 ∨
        t0 < 0 ∨ t0 > 1 then LogVal.neginf else LogVal.val 0) = _
    exact if_neg hno

/-- Witness for C8 at the concrete boundary point
`A = 0.1, B = 10, P = 0.3, t0 = 0` (four endpoint hits at once). -/
theorem log_prior_boundary_witness :
    ((1:ℚ)/10 = 1/10 ∨ (1:ℚ)/10 = 100 ∨ (10:ℚ) = -10 ∨ (10:ℚ) = 10 ∨
      (3:ℚ)/10 = 3/10 ∨ (3:ℚ)/10 = 10 ∨ (0:ℚ) = 0 ∨ (0:ℚ) = 1)
    ∧ log_prior ((1:ℚ)/10, 10, 3/10, 0) = LogVal.val 0
    ∧ log_prior_A ((1:ℚ)/10, 10, 3/10, 0) = LogVal.val 0 := by
  have h := log_prior_boundary ((1:ℚ)/10) 10 (3/10) 0
    (by norm_num) (by norm_num)
  exact ⟨by norm_num, h.1, h.2⟩


/-- C2: `log_post` short-circuits to `-inf` whenever the prior is `-inf`
(for every choice of data, so the likelihood does not affect the result),
and equals prior plus likelihood when the prior is finite. -/
theorem log_post_short_circuit (sn : α → α) (piv : α) (t y : List α)
    (yerr : α) (params : α × α × α × α) :
    (log_prior params = LogVal.neginf →
      log_post sn piv t y yerr params = LogVal.neginf)
    ∧ (∀ c : α, log_prior params = LogVal.val c →
      log_post sn piv t y yerr params =
        LogVal.val (c + log_like sn piv t y yerr params)) := by
  constructor
  · intro h
    simp [log_post, h, LogVal.isfinite]
  · intro c h
    simp [log_post, h, LogVal.isfinite, LogVal.add]

/-- Witness for C2: at the out-of-bound point `A = 0` the posterior is
`-inf`, and at the in-bound point `(1, 0, 1, 0)` with one observation it
is the prior plus the likelihood. -/
theorem log_post_short_circuit_witness :
    (log_prior ((0:ℚ), 0, 1, 0) = LogVal.neginf
      ∧ log_post snQ 0 [1] [2] 1 ((0:ℚ), 0, 1, 0) = LogVal.neginf)
    ∧ (log_prior ((1:ℚ), 0, 1, 0) = LogVal.val 0
      ∧ log_post snQ 0 [1] [2] 1 ((1:ℚ), 0, 1, 0) =
        LogVal.val (0 + log_like snQ 0 [1] [2] 1 ((1:ℚ), 0, 1, 0))) := by
  refine ⟨⟨by norm_num [log_prior], ?_⟩, ⟨by norm_num [log_prior], ?_⟩⟩
  · exact (log_post_short_circuit snQ 0 [1] [2] 1 ((0:ℚ), 0, 1, 0)).1
      (by norm_num [log_prior])
  · exact (log_post_short_circuit snQ 0 [1] [2] 1 ((1:ℚ), 0, 1, 0)).2 0
      (by norm_num [log_prior])

/-- Helper: the prior takes only the two values `-inf` and `0`. -/
theorem log_prior_cases (params : α × α × α × α) :
    log_prior params = LogVal.neginf ∨ log_prior params = LogVal.val 0 := by
  obtain ⟨A, B, P, t0⟩ := params
  by_cases hcond : |B| > 10 ∨ A < 1/10 ∨ A > 100 ∨ P < 3/10 ∨ P > 10 ∨
      t0 < 0 ∨ t0 > 1
  · exact Or.inl (if_pos hcond)
  · exact Or.inr (if_neg hcond)

/-- Helper: the likelihood is never positive (it is `-1/2` times a sum
of squares). -/
theorem log_like_nonpos (sn : α → α) (piv : α) (t y : List α)
    (yerr : α) (params : α × α × α × α) :
    log_like sn piv t y yerr params ≤ 0 := by
  have hs : (0:α) ≤ (((sine_model_vec sn piv params t).zip y).map
      (fun q => ((q.1 - q.2) / yerr) ^ 2)).sum := by
    refine List.sum_nonneg ?_
    intro x hx
    rcases List.mem_map.mp hx with ⟨q, hq, rfl⟩
    exact sq_nonneg _
  simp only [log_like]
  linarith

/-- C9: the log-posterior is never positive: it is either `-inf` or a
finite value `x ≤ 0`, since the prior contributes `0` and the likelihood
is `-1/2` times a sum of squares. -/
theorem log_post_nonpositive (sn : α → α) (piv : α) (t y : List α)
    (yerr : α) (params : α × α × α × α) :
    log_post sn piv t y yerr params = LogVal.neginf
    ∨ ∃ x : α, log_post sn piv t y yerr params = LogVal.val x ∧ x ≤ 0 := by
  rcases log_prior_cases params with hp | hp
  · left
    simp [log_post, hp, LogVal.isfinite]
  · right
    refine ⟨0 + log_like sn piv t y yerr params, ?_, ?_⟩
    · simp [log_post, hp, LogVal.isfinite, LogVal.add]
    · simpa using log_like_nonpos sn piv t y yerr params


/-- C3: the likelihood functions compute exactly `-1/2` times the sum,
over all observations, of the squared standardized residual between the
model prediction at the observation's time and the observed value; no
other term (in particular no Gaussian normalization constant) enters. -/
theorem log_like_residual_sum (sn : α → α) (piv : α) (obs : List (α × α))
    (yerr : α) (params : α × α × α × α) (paramB : α) :
    log_like sn piv (obs.map Prod.fst) (obs.map Prod.snd) yerr params =
      -(1/2) * ∑ i : Fin obs.length,
        ((sine_model sn piv params (obs.get i).1 - (obs.get i).2) / yerr) ^ 2
    ∧ log_like_A sn piv (obs.map Prod.fst) (obs.map Prod.snd) yerr params =
      -(1/2) * ∑ i : Fin obs.length,
        ((model_A sn piv params (obs.get i).1 - (obs.get i).2) / yerr) ^ 2
    ∧ log_like_B (obs.map Prod.fst) (obs.map Prod.snd) yerr paramB =
      -(1/2) * ∑ i : Fin obs.length,
        ((model_B paramB (obs.get i).1 - (obs.get i).2) / yerr) ^ 2 := by
  refine ⟨?_, ?_, ?_⟩
  · simp only [log_like, sine_model_vec, List.map_map]
    rw [List.zip_map', List.map_map, list_map_sum_eq_fin_sum]
    simp [Function.comp]
  · simp only [log_like_A, model_A_vec, List.map_map]
    rw [List.zip_map', List.map_map, list_map_sum_eq_fin_sum]
    simp [Function.comp]
  · simp only [log_like_B, model_B_vec, List.map_map]
    rw [List.zip_map', List.map_map, list_map_sum_eq_fin_sum]
    simp [Function.comp]

/-- C4: broadcasting a model over a sequence of times preserves shape,
order and semantics: the output has the length of the input and its
`i`-th element is the scalar model applied to the `i`-th time, for all
three model functions. -/
theorem model_vec_pointwise (sn : α → α) (piv : α) (params : α × α × α × α)
    (paramB : α) (ts : List α) :
    ((sine_model_vec sn piv params ts).length = ts.length
      ∧ ∀ i : ℕ, (sine_model_vec sn piv params ts).get? i =
          (ts.get? i).map (sine_model sn piv params))
    ∧ ((model_A_vec sn piv params ts).length = ts.length
      ∧ ∀ i : ℕ, (model_A_vec sn piv params ts).get? i =
          (ts.get? i).map (model_A sn piv params))
    ∧ ((model_B_vec paramB ts).length = ts.length
      ∧ ∀ i : ℕ, (model_B_vec paramB ts).get? i =
          (ts.get? i).map (model_B paramB)) := by
  refine ⟨⟨?_, fun i => ?_⟩, ⟨?_, fun i => ?_⟩, ⟨?_, fun i => ?_⟩⟩ <;>
    simp [sine_model_vec, model_A_vec, model_B_vec, List.get?_map]

/-- C10: the constant-offset model ignores time: `model_B` returns its
single parameter `B` at every time, and over a sequence of times it
yields a sequence of the same length with every element equal to `B`. -/
theorem model_B_time_independent (b tv : α) (ts : List α) :
    model_B b tv = b
    ∧ (model_B_vec b ts).length = ts.length
    ∧ ∀ i : ℕ, (model_B_vec b ts).get? i = (ts.get? i).map (fun _ => b) := by
  have hb : model_B b = fun _ : α => b := by
    funext x
    simp [model_B]
  refine ⟨by simp [model_B], by simp [model_B_vec], fun i => ?_⟩
  simp only [model_B_vec, List.get?_map]
  rw [hb]

/-- C5: the Data Generator is deterministic given the seed: two runs with
the same seed, observation count, time domain, ground-truth parameters
and noise level produce identical observation sets (element for element,
as list equality), regardless of the ambient RNG state each run starts
from, because the cell reseeds the generator before drawing. -/
theorem dataGen_deterministic (g : RNGModel α) (sn : α → α) (piv : α)
    (amb1 amb2 : g.State) (seed n_data : ℕ) (low high : α)
    (params_true : α × α × α × α) (yerr : α) :
    dataGen g sn piv amb1 seed n_data low high params_true yerr =
      dataGen g sn piv amb2 seed n_data low high params_true yerr := rfl

/-- C6 (amended): the generator fails fast exactly for negative counts;
a count of zero succeeds with no error (yielding an empty observation
set), and positive counts succeed with no error. -/
theorem dataGenChecked_error_iff_negative (g : RNGModel α) (sn : α → α)
    (piv : α) (amb : g.State) (seed : ℕ) (n_data : ℤ) (low high : α)
    (params_true : α × α × α × α) (yerr : α) :
    (n_data < 0 →
      dataGenChecked g sn piv amb seed n_data low high params_true yerr =
        Except.error "ValueError: negative dimensions are not allowed")
    ∧ (0 ≤ n_data →
      dataGenChecked g sn piv amb seed n_data low high params_true yerr =
        Except.ok (dataGen g sn piv amb seed n_data.toNat low high
          params_true yerr)) := by
  constructor
  · intro h
    simp [dataGenChecked, h]
  · intro h
    simp [dataGenChecked, not_lt.mpr h]

/-- Counterexample to C6 as stated: at the non-positive count `0` the
generator does not fail fast; it succeeds with an empty observation
set. -/
theorem dataGenChecked_zero_count_succeeds :
    dataGenChecked rngQ snQ 0 ambQ 42 0 0 5 ((1:ℚ), 1, 3, 0) 1 =
      Except.ok [] := rfl

/-- Witness for the amended C6 at the concrete counts `-1` (error) and
`1` (success). -/
theorem dataGenChecked_error_iff_negative_witness :
    ((-1 : ℤ) < 0
      ∧ dataGenChecked rngQ snQ 0 ambQ 42 (-1) 0 5 ((1:ℚ), 1, 3, 0) 1 =
        Except.error "ValueError: negative dimensions are not allowed")
    ∧ ((0 : ℤ) ≤ 1
      ∧ dataGenChecked rngQ snQ 0 ambQ 42 1 0 5 ((1:ℚ), 1, 3, 0) 1 =
        Except.ok (dataGen rngQ snQ 0 ambQ 42 1 0 5 ((1:ℚ), 1, 3, 0) 1)) :=
  ⟨⟨by decide,
    (dataGenChecked_error_iff_negative rngQ snQ 0 ambQ 42 (-1) 0 5
      ((1:ℚ), 1, 3, 0) 1).1 (by decide)⟩,
   ⟨by decide,
    (dataGenChecked_error_iff_negative rngQ snQ 0 ambQ 42 1 0 5
      ((1:ℚ), 1, 3, 0) 1).2 (by decide)⟩⟩

end Theorems
